import Mathlib

/-!
# necrasovka front end: state derivations of `App.jsx` and `Slider.jsx`

A shallow embedding of the client-side logic of the search page:

* `SnippetToggle` (App.jsx 5-43): the `useMemo` computing `shortHTML` / `needsToggle`
  and the markup handed to `dangerouslySetInnerHTML`;
* `allTypes` and `filteredResults` (App.jsx 55-66);
* `sendLike` (App.jsx 68-82) and the like button of a result card (App.jsx 204-214);
* `handleSearch` (App.jsx 85-104);
* `YearRangeSlider` (Slider.jsx 7-13).

React state is passed explicitly; the outcome of a `fetch` is an input of the
operation that awaits it.
-/

namespace Necrasovka

/-! ## JavaScript strings -/

/-- A JavaScript string: the sequence of its UTF-16 code units, so that
`List.length` is `.length` and `List.take n` is `.slice(0, n)`.  A `Char` stands
for the code unit of the same value; all literals used below are in the Basic
Multilingual Plane, one code unit each. -/
abbrev JSString := List Char

/-- The string literal `s`. -/
def str (s : String) : JSString := s.toList

/-- Truthiness of a string value: every string but the empty one. -/
def truthyStr (s : JSString) : Bool := !s.isEmpty

/-! ## SnippetToggle (App.jsx 5-43) -/

/-- The host's markup facilities used at App.jsx 9-11 on a fresh detached `div`:
`textContent s` is `temp.textContent` after `temp.innerHTML = s` (always a
string), `innerText s` is `temp.innerText` (`none` on a host that has no such
property). -/
structure Host where
  textContent : JSString → JSString
  innerText : JSString → Option JSString

/-- App.jsx 11: `temp.textContent || temp.innerText || ""`. -/
def fullText (host : Host) (snippet : JSString) : JSString :=
  let tc := host.textContent snippet
  if truthyStr tc then tc
  else
    match host.innerText snippet with
    | some it => if truthyStr it then it else []
    | none => []

/-- App.jsx 13. -/
def maxLength : Nat := 300

/-- The ellipsis character U+2026 appended at App.jsx 15. -/
def ellipsis : Char := Char.ofNat 0x2026

/-- The object returned by the `useMemo` callback, App.jsx 22. -/
structure Preview where
  shortHTML : JSString
  needsToggle : Bool
deriving DecidableEq, Repr

/-- App.jsx 15: `fullText.slice(0, maxLength) + (needsToggle ? "…" : "")`. -/
def shortText (full : JSString) (needsToggle : Bool) : JSString :=
  full.take maxLength ++ (if needsToggle then [ellipsis] else [])

/-- App.jsx 8-23: the memoised computation of `SnippetToggle`. -/
def snippetMemo (host : Host) (snippet : JSString) : Preview :=
  let full := fullText host snippet
  let needsToggle := decide (full.length > maxLength)
  let short := shortText full needsToggle
  let shortHTML := if needsToggle then str "<span>" ++ short ++ str "</span>" else snippet
  { shortHTML := shortHTML, needsToggle := needsToggle }

/-- App.jsx 30: the markup given to `dangerouslySetInnerHTML`,
`expanded ? snippet : shortHTML`. -/
def renderedHTML (host : Host) (expanded : Bool) (snippet : JSString) : JSString :=
  if expanded then snippet else (snippetMemo host snippet).shortHTML

/-- App.jsx 33: the toggle button is rendered iff `needsToggle`. -/
def toggleShown (host : Host) (snippet : JSString) : Bool :=
  (snippetMemo host snippet).needsToggle

/-- The text a reader sees for a piece of markup: what the same extractor
yields from it. -/
def visibleText (host : Host) (markup : JSString) : JSString :=
  fullText host markup

/-! ### A reference model of the host's markup parser

`Host` is a parameter of the development: the general statements hold for
every host.  The concrete host below is used where a statement has to be
evaluated.  It is not a full HTML parser; it follows the HTML tokenizer on the
fragments it is applied to here, which are made of plain characters,
attribute-free tags such as `<p>`, `</p>`, `<b>`, `<span>`, and the character
references `&amp;`, `&lt;`, `&gt;`. -/

/-- ASCII letters: a `<` opens a tag only when one follows (after an optional `/`). -/
def isAsciiLetter (c : Char) : Bool :=
  (decide (97 ≤ c.toNat) && decide (c.toNat ≤ 122)) ||
    (decide (65 ≤ c.toNat) && decide (c.toNat ≤ 90))

/-- Whether the characters after a `<` make it the start of a tag. -/
def opensTag : List Char → Bool
  | [] => false
  | c :: rest =>
    if isAsciiLetter c then true
    else if c == '/' then
      match rest with
      | d :: _ => isAsciiLetter d
      | [] => false
    else false

/-- Tokenizer mode: character data, inside a tag, or skipping the remaining
`n` characters of a character reference already decoded. -/
inductive Mode where
  | data
  | tag
  | skip (n : Nat)
deriving DecidableEq, Repr

/-- The text content of a fragment: tags are dropped, character references
decoded, every other character kept. -/
def textOf : Mode → List Char → List Char
  | _, [] => []
  | .tag, c :: rest => if c == '>' then textOf .data rest else textOf .tag rest
  | .skip n, _ :: rest => textOf (if n ≤ 1 then .data else .skip (n - 1)) rest
  | .data, c :: rest =>
    if c == '<' && opensTag rest then textOf .tag rest
    else if c == '&' then
      if rest.take 4 == str "amp;" then '&' :: textOf (.skip 4) rest
      else if rest.take 3 == str "lt;" then '<' :: textOf (.skip 3) rest
      else if rest.take 3 == str "gt;" then '>' :: textOf (.skip 3) rest
      else '&' :: textOf .data rest
    else c :: textOf .data rest

/-- The reference host: a detached element is not rendered, so its `innerText`
is its `textContent`. -/
def domHost : Host where
  textContent := textOf .data
  innerText := fun s => some (textOf .data s)

/-! ## Documents and the derived views (App.jsx 55-66) -/

/-- A result of the search response.  Only the fields read by the modelled
code are kept: `id` (App.jsx 168, 205-213), `path_index` (App.jsx 58, 65) and
`title`, which tells documents apart.  An absent field is `none`. -/
structure Document where
  id : Option JSString
  title : Option JSString
  path_index : Option JSString
deriving DecidableEq, Repr

/-- The method `Set.prototype.add` on the insertion-ordered contents of a `Set`
of strings: a value already present keeps its place. -/
def setAdd (s : List JSString) (v : JSString) : List JSString :=
  if s.contains v then s else s ++ [v]

/-- App.jsx 57-59: the `forEach` callback, `if (r.path_index) s.add(r.path_index)`. -/
def addType (s : List JSString) (r : Document) : List JSString :=
  match r.path_index with
  | some p => if truthyStr p then setAdd s p else s
  | none => s

/-- App.jsx 55-61: `allTypes`, the contents of the `Set` in insertion order
(`Array.from(s)`). -/
def allTypes (results : List Document) : List JSString :=
  results.foldl addType []

/-- The method `Array.prototype.includes` on an array of strings, asked for a
value that is a string or `undefined`: `undefined` equals no string. -/
def includes (xs : List JSString) (v : Option JSString) : Bool :=
  match v with
  | some t => xs.contains t
  | none => false

/-- App.jsx 63-66: `filteredResults`. -/
def filteredResults (results : List Document) (selectedTypes : List JSString) :
    List Document :=
  if selectedTypes.length == 0 then results
  else results.filter (fun r => includes selectedTypes r.path_index)

/-- The position in `results` of the first result whose `path_index` is the
string `t` (the length of `results` if there is none). -/
def firstIndex (results : List Document) (t : JSString) : Nat :=
  @List.indexOf (Option JSString) instBEqOfDecidableEq (some t)
    (results.map Document.path_index)

/-! ## Likes (App.jsx 52, 68-82, 204-214) -/

/-- The `likes` object: the value stored under each property key, `none` where
the object has no such property. -/
abbrev Likes := JSString → Option Bool

/-- App.jsx 52: `useState({})`. -/
def noLikes : Likes := fun _ => none

/-- Conversion of a document id to a property key: `undefined` becomes the key
`"undefined"`, a string is its own key. -/
def propertyKey : Option JSString → JSString
  | some s => s
  | none => str "undefined"

/-- App.jsx 69: the updater `(prev) => ({ ...prev, [docId]: true })`. -/
def setLiked (prev : Likes) (docId : Option JSString) : Likes :=
  fun k => if k = propertyKey docId then some true else prev k

/-- The member access `likes[item.id]`. -/
def likesAt (likes : Likes) (id : Option JSString) : Option Bool :=
  likes (propertyKey id)

/-- App.jsx 207-213: the truthiness of `likes[item.id]`, which selects the
liked styling, disables the button and picks its label. -/
def likedShown (likes : Likes) (item : Document) : Bool :=
  likesAt likes item.id == some true

/-- An `Error` object, as `fetch` and `res.json()` reject with (a `TypeError`, a
`SyntaxError`, a `DOMException`) and as App.jsx 96 throws; as far as the code
reads it: its `message`, a string. -/
structure JSError where
  message : JSString
deriving DecidableEq, Repr

/-- App.jsx 76: the body of the `POST /like` request. -/
structure LikeRequest where
  doc_id : Option JSString
  query : JSString
deriving DecidableEq, Repr

/-- How the awaited `fetch("/like", ...)` ends: it resolves with a response of
some status (`ok` or not), or it rejects. -/
inductive LikeOutcome where
  | resolved (ok : Bool)
  | rejected (err : JSError)
deriving DecidableEq, Repr

/-- What `sendLike` writes to the console: App.jsx 78 or App.jsx 80. -/
inductive LikeLog where
  | sent (docId : JSString)
  | failed (err : JSError)
deriving DecidableEq, Repr

/-- App.jsx 68-82: `sendLike`.  Returns the new `likes` and the console entry. -/
def sendLike (fetchLike : LikeRequest → LikeOutcome) (likes : Likes)
    (docId : Option JSString) (currentQuery : JSString) : Likes × LikeLog :=
  let likes1 := setLiked likes docId
  match fetchLike { doc_id := docId, query := currentQuery } with
  | .resolved _ => (likes1, .sent (propertyKey docId))
  | .rejected err => (likes1, .failed err)

/-- App.jsx 167, 205: the click handler of the like button of the card at
position `i` of the rendered list, `sendLike(item.id, query)`. -/
def clickLike (fetchLike : LikeRequest → LikeOutcome) (likes : Likes)
    (shown : List Document) (query : JSString) (i : Nat) : Likes :=
  match shown.get? i with
  | some item => (sendLike fetchLike likes item.id query).1
  | none => likes

/-- App.jsx 168: the React key of the card at position `index`,
`item.id || index`. -/
def cardKey (item : Document) (index : Nat) : JSString ⊕ Nat :=
  match item.id with
  | some s => if truthyStr s then .inl s else .inr index
  | none => .inr index

/-! ## handleSearch (App.jsx 85-104) -/

/-- App.jsx 88-92: the parameters of the search request. -/
structure SearchRequest where
  index : JSString
  q : JSString
  start_year : Int
  end_year : Int
deriving DecidableEq, Repr

/-- The `total` object of a search response. -/
structure Total where
  value : Option Int
deriving DecidableEq, Repr

/-- The JSON object of a search response: `results` and `total` may be absent. -/
structure SearchData where
  results : Option (List Document)
  total : Option Total
deriving DecidableEq, Repr

/-- How the search call ends: `fetch` rejects, or it resolves with a response
of status `ok` or not whose `json()` either rejects or yields the data. -/
inductive SearchOutcome where
  | rejected (err : JSError)
  | response (ok : Bool) (json : Except JSError SearchData)

/-- The state of `App` (App.jsx 46-53). -/
structure AppState where
  query : JSString
  results : List Document
  total : Option Int
  loading : Bool
  error : Option JSString
  yearRange : Int × Int
  likes : Likes
  selectedTypes : List JSString

/-- App.jsx 46-53: the initial state. -/
def initialApp : AppState where
  query := []
  results := []
  total := none
  loading := false
  error := none
  yearRange := (1500, 2025)
  likes := noLikes
  selectedTypes := []

/-- App.jsx 98: `data.results || []`; an array, empty or not, is truthy. -/
def resultsOrEmpty (data : SearchData) : List Document :=
  match data.results with
  | some rs => rs
  | none => []

/-- App.jsx 99: `data.total?.value || 0`; the number `0` is falsy. -/
def totalOrZero (data : SearchData) : Int :=
  match data.total with
  | none => 0
  | some t =>
    match t.value with
    | none => 0
    | some v => if v = 0 then 0 else v

/-- App.jsx 96: the message of `new Error("Ошибка загрузки")`. -/
def loadErrorMessage : JSString := str "Ошибка загрузки"

/-- App.jsx 88-92: the request built from the current `query` and `yearRange`. -/
def searchRequest (s : AppState) : SearchRequest :=
  { index := str "my-books-index", q := s.query,
    start_year := s.yearRange.1, end_year := s.yearRange.2 }

/-- App.jsx 85-104: `handleSearch`, with the state updates applied in program
order. -/
def handleSearch (fetchSearch : SearchRequest → SearchOutcome) (s : AppState) : AppState :=
  let s1 := { s with loading := true, error := none }
  let s2 :=
    match fetchSearch (searchRequest s) with
    | .rejected err => { s1 with error := some err.message }
    | .response ok json =>
      if !ok then { s1 with error := some loadErrorMessage }
      else
        match json with
        | .error err => { s1 with error := some err.message }
        | .ok data => { s1 with results := resultsOrEmpty data, total := some (totalOrZero data) }
  { s2 with loading := false }

/-! ## YearRangeSlider (Slider.jsx) -/

/-- Slider.jsx 4. -/
def MIN : Int := 1500

/-- Slider.jsx 5. -/
def MAX : Int := 2025

/-- `x || d` for a number or `undefined`: `undefined` and `0` are falsy. -/
def orDefault (x : Option Int) (d : Int) : Int :=
  match x with
  | some v => if v = 0 then d else v
  | none => d

/-- Slider.jsx 8: the initial `values`, `[startYear || MIN, endYear || MAX]`. -/
def initialValues (startYear endYear : Option Int) : Int × Int :=
  (orDefault startYear MIN, orDefault endYear MAX)

/-- The slider together with its parent: `values` is the slider's own state,
`yearRange` the state of `App` that `onChange = setYearRange` writes
(App.jsx 131-135). -/
structure RangeState where
  values : Int × Int
  yearRange : Int × Int
deriving DecidableEq, Repr

/-- The slider as mounted by a parent holding `yearRange`, with props
`startYear` and `endYear`. -/
def mount (startYear endYear : Option Int) (yearRange : Int × Int) : RangeState :=
  { values := initialValues startYear endYear, yearRange := yearRange }

/-- Slider.jsx 10-13: `handleChange`, `setValues(values); onChange(values)`. -/
def handleChange (st : RangeState) (values : Int × Int) : RangeState :=
  { st with values := values, yearRange := values }

/-- The two handles of the slider: `values[0]` and `values[1]`. -/
inductive Thumb where
  | startThumb
  | endThumb
deriving DecidableEq, Repr

/-- A user action on the slider (a drag step, a key press, a click on the
track): the handle it moves and the year it asks for. -/
structure Gesture where
  thumb : Thumb
  requested : Int
deriving DecidableEq, Repr

/-- Modelled from the spec: the `Range` widget of `react-range`, imported at
Slider.jsx 2 and rendered at Slider.jsx 20-25 with `min = MIN`, `max = MAX`,
`step = 1` and the current `values`; its source is not in the repository.  Spec
4.4: the pair stays "within closed bounds `[MIN=1500, MAX=2025]`" and "a drag
that would cross the other handle must clamp against it, not swap handles";
spec 8: "setting start above current end clamps start to end's value".  This is
the year the widget gives the moved handle: the requested year, clamped against
the other handle's current position, then into `[MIN, MAX]`. -/
def clampRequested (values : Int × Int) (thumb : Thumb) (value : Int) : Int :=
  match thumb with
  | .startThumb =>
    if values.2 < value then values.2
    else if value > MAX then MAX
    else if value < MIN then MIN
    else value
  | .endThumb =>
    if values.1 > value then values.1
    else if value > MAX then MAX
    else if value < MIN then MIN
    else value

/-- Modelled from the spec: the pair the `Range` widget passes to its
`onChange` (Slider.jsx 25) for a gesture.  Spec 4.4, "handles keep fixed
identity": the moved handle takes its clamped year, the other handle keeps its
position. -/
def deliver (values : Int × Int) (g : Gesture) : Int × Int :=
  match g.thumb with
  | .startThumb => (clampRequested values .startThumb g.requested, values.2)
  | .endThumb => (values.1, clampRequested values .endThumb g.requested)

/-- One gesture on the mounted slider: the widget reads the current `values`
(Slider.jsx 24) and calls `handleChange` with the pair it delivers. -/
def gesture (st : RangeState) (g : Gesture) : RangeState :=
  handleChange st (deliver st.values g)

/-- A sequence of gestures. -/
def runGestures (st : RangeState) (gs : List Gesture) : RangeState :=
  gs.foldl gesture st

/-- App.jsx 131-135: the slider as `App` mounts it when its `yearRange` is `r`,
with `startYear = yearRange[0]` and `endYear = yearRange[1]`. -/
def appMount (r : Int × Int) : RangeState :=
  mount (some r.1) (some r.2) r

/-- App.jsx 51: the slider of the initial `App`, whose `yearRange` is
`[1500, 2025]`. -/
def appInitial : RangeState := appMount (1500, 2025)

/-- The invariant `1500 ≤ start ≤ end ≤ 2025` of a year pair. -/
def InRange (p : Int × Int) : Prop :=
  MIN ≤ p.1 ∧ p.1 ≤ p.2 ∧ p.2 ≤ MAX

instance (p : Int × Int) : Decidable (InRange p) := by
  unfold InRange; infer_instance

/-! ## Inputs used in the evaluated statements -/

/-- A short fragment with inline formatting. -/
def boldSnippet : JSString := str "<b>hi</b>"

/-- The fragment `"&amp;amp;" + "x".repeat(400)`: its text is `&amp;` followed
by 400 letters. -/
def ampSnippet : JSString := str "&amp;amp;" ++ List.replicate 400 'x'

/-- Three results with facets `a`, absent, `a` and a fourth with facet `b`. -/
def sampleResults : List Document :=
  [ { id := some (str "1"), title := none, path_index := some (str "a") },
    { id := some (str "2"), title := none, path_index := none },
    { id := some (str "3"), title := none, path_index := some (str "a") },
    { id := some (str "4"), title := none, path_index := some (str "b") } ]

/-- A single result whose `path_index` is the empty string. -/
def emptyFacetResults : List Document :=
  [ { id := some (str "1"), title := none, path_index := some [] } ]

/-- The state before the search of the scenarios: the query `Маяковский`, the
year range 1917-1930, the results of an earlier search still shown. -/
def scenarioState : AppState :=
  { initialApp with
    query := str "Маяковский", yearRange := (1917, 1930),
    results := sampleResults, total := some 4, error := some (str "old") }

/-- A successful response with two documents and `total.value = 2`. -/
def scenarioData : SearchData :=
  { results := some
      [ { id := some (str "A"), title := some (str "docA"), path_index := none },
        { id := some (str "B"), title := some (str "docB"), path_index := none } ],
    total := some { value := some 2 } }

/-- The state `s1` left by a failed search started in `s`: `error` is a
non-empty string, `results` and `total` are those of `s`, `loading` is false. -/
def SearchFailed (s s1 : AppState) : Prop :=
  (∃ m : JSString, s1.error = some m ∧ m ≠ []) ∧
    s1.results = s.results ∧ s1.total = s.total ∧ s1.loading = false

/-- A result without `id`. -/
def firstNoId : Document :=
  { id := none, title := some (str "first"), path_index := none }

/-- Another result without `id`. -/
def secondNoId : Document :=
  { id := none, title := some (str "second"), path_index := none }

/-- Two rendered results, neither of which carries an `id`. -/
def noIdResults : List Document := [firstNoId, secondNoId]

/-! ## SnippetToggle -/

theorem needsToggle_eq (host : Host) (snippet : JSString) :
    (snippetMemo host snippet).needsToggle = decide (300 < (fullText host snippet).length) := rfl

/-- For any host, a fragment with more than 300 characters of text gets the
toggle and the preview `<span>` + first 300 characters + `…` + `</span>`. -/
theorem shortHTML_of_long (host : Host) (snippet : JSString)
    (h : 300 < (fullText host snippet).length) :
    (snippetMemo host snippet).needsToggle = true ∧
    (snippetMemo host snippet).shortHTML =
      str "<span>" ++ ((fullText host snippet).take 300 ++ [ellipsis]) ++ str "</span>" := by
  simp [snippetMemo, shortText, maxLength, h]

/-- C1: for every host and every fragment whose extracted plain text has at
most 300 characters, `needsToggle` is false (no toggle is shown) and `shortHTML`,
which is what gets rendered, is the fragment itself; under the reference parser
the empty fragment gives the empty preview and no toggle. -/
theorem snippet_short_unchanged (host : Host) (snippet : JSString)
    (h : (fullText host snippet).length ≤ 300) :
    ((snippetMemo host snippet).needsToggle = false ∧
      (snippetMemo host snippet).shortHTML = snippet ∧
      toggleShown host snippet = false ∧
      renderedHTML host false snippet = snippet) ∧
    ((snippetMemo domHost []).shortHTML = [] ∧
      (snippetMemo domHost []).needsToggle = false ∧
      toggleShown domHost [] = false) := by
  have hd : decide ((fullText host snippet).length > maxLength) = false := by
    simpa [maxLength] using h
  refine ⟨?_, by decide⟩
  simp [snippetMemo, toggleShown, renderedHTML, hd]

theorem snippet_short_unchanged_witness :
    (fullText domHost boldSnippet).length ≤ 300 ∧
    (snippetMemo domHost boldSnippet).shortHTML = boldSnippet :=
  ⟨by decide, (snippet_short_unchanged domHost boldSnippet (by decide)).1.2.1⟩

set_option maxRecDepth 100000 in
/-- C2, evaluated at the fragment `"&amp;amp;" + "x".repeat(400)`: its text has
405 characters, so `needsToggle` is true and `shortHTML` is `<span>` + `&amp;` +
295 letters + `…` + `</span>`, a preview text of 301 characters; read back as
markup, `&amp;` is one character, and the visible text has 297 characters. -/
theorem snippet_preview_reparsed :
    (fullText domHost ampSnippet).length = 405 ∧
    (snippetMemo domHost ampSnippet).needsToggle = true ∧
    (snippetMemo domHost ampSnippet).shortHTML =
      str "<span>" ++ (str "&amp;" ++ List.replicate 295 'x' ++ [ellipsis]) ++ str "</span>" ∧
    visibleText domHost (snippetMemo domHost ampSnippet).shortHTML =
      '&' :: (List.replicate 295 'x' ++ [ellipsis]) ∧
    (visibleText domHost (snippetMemo domHost ampSnippet).shortHTML).length = 297 ∧
    renderedHTML domHost true ampSnippet = ampSnippet := by
  decide

/-! ## filteredResults -/

theorem includes_iff (xs : List JSString) (v : Option JSString) :
    includes xs v = true ↔ ∃ t ∈ xs, v = some t := by
  cases v with
  | none => simp [includes]
  | some t => simp [includes]

/-- C3: `filteredResults` is `results` itself when `selectedTypes` is empty;
otherwise it is a subsequence of `results`, each of its elements has its
`path_index` in `selectedTypes`, and it contains every subsequence of `results`
made of such elements, so no matching result is left out and the order is that
of `results`. -/
theorem filteredResults_spec (results : List Document) (selectedTypes : List JSString) :
    (selectedTypes = [] → filteredResults results selectedTypes = results) ∧
    (selectedTypes ≠ [] →
      (filteredResults results selectedTypes).Sublist results ∧
      (∀ r ∈ filteredResults results selectedTypes,
        ∃ t ∈ selectedTypes, r.path_index = some t) ∧
      (∀ r ∈ results, (∃ t ∈ selectedTypes, r.path_index = some t) →
        r ∈ filteredResults results selectedTypes) ∧
      (∀ l : List Document, l.Sublist results →
        (∀ r ∈ l, ∃ t ∈ selectedTypes, r.path_index = some t) →
        l.Sublist (filteredResults results selectedTypes))) := by
  constructor
  · intro h
    simp [filteredResults, h]
  · intro h
    have hlen : (selectedTypes.length == 0) = false := by
      cases selectedTypes with
      | nil => exact absurd rfl h
      | cons a t => rfl
    simp only [filteredResults, hlen, Bool.false_eq_true, if_false]
    refine ⟨List.filter_sublist _, ?_, ?_, ?_⟩
    · intro r hr
      exact (includes_iff _ _).1 (List.mem_filter.1 hr).2
    · intro r hr hm
      exact List.mem_filter.2 ⟨hr, (includes_iff _ _).2 hm⟩
    · intro l hl hall
      have hfl : l.filter (fun r => includes selectedTypes r.path_index) = l :=
        List.filter_eq_self.2 (fun r hr => (includes_iff _ _).2 (hall r hr))
      rw [← hfl]
      exact hl.filter _

theorem filteredResults_spec_witness :
    ([str "a"] ≠ [] ∧ ([] : List JSString) = []) ∧
    filteredResults sampleResults [] = sampleResults ∧
    (filteredResults sampleResults [str "a"]).Sublist sampleResults ∧
    (∀ r ∈ filteredResults sampleResults [str "a"],
      ∃ t ∈ [str "a"], r.path_index = some t) :=
  ⟨⟨by decide, rfl⟩, (filteredResults_spec sampleResults []).1 rfl,
    ((filteredResults_spec sampleResults [str "a"]).2 (by decide)).1,
    ((filteredResults_spec sampleResults [str "a"]).2 (by decide)).2.1⟩

/-! ## allTypes -/

theorem allTypes_snoc (rs : List Document) (r : Document) :
    allTypes (rs ++ [r]) = addType (allTypes rs) r := by
  simp [allTypes, List.foldl_append]

theorem mem_setAdd (s : List JSString) (v t : JSString) :
    t ∈ setAdd s v ↔ t ∈ s ∨ t = v := by
  unfold setAdd
  by_cases h : v ∈ s
  · simp only [List.elem_eq_mem, h, decide_True, if_true]
    constructor
    · exact Or.inl
    · rintro (h1 | h1)
      · exact h1
      · exact h1 ▸ h
  · simp [h]

theorem mem_addType (s : List JSString) (r : Document) (t : JSString) :
    t ∈ addType s r ↔ t ∈ s ∨ (t ≠ [] ∧ r.path_index = some t) := by
  unfold addType
  cases hp : r.path_index with
  | none => simp
  | some p =>
    by_cases hne : p = []
    · subst hne
      simp only [truthyStr, List.isEmpty_nil, Bool.not_true, Bool.false_eq_true, if_false,
        Option.some.injEq]
      constructor
      · exact Or.inl
      · rintro (h | ⟨h1, h2⟩)
        · exact h
        · exact absurd h2.symm h1
    · have htr : truthyStr p = true := by
        cases p with
        | nil => exact absurd rfl hne
        | cons a l => rfl
      simp only [htr, if_true, mem_setAdd, Option.some.injEq]
      constructor
      · rintro (h | h)
        · exact Or.inl h
        · exact Or.inr ⟨h ▸ hne, h.symm⟩
      · rintro (h | ⟨_, h2⟩)
        · exact Or.inl h
        · exact Or.inr h2.symm

/-- Membership in `allTypes`: the non-empty strings occurring as a `path_index`. -/
theorem mem_allTypes (rs : List Document) (t : JSString) :
    t ∈ allTypes rs ↔ t ≠ [] ∧ ∃ r ∈ rs, r.path_index = some t := by
  induction rs using List.reverseRecOn with
  | nil => simp [allTypes]
  | append_singleton rs r ih =>
    rw [allTypes_snoc, mem_addType, ih]
    constructor
    · rintro (⟨h1, r0, hr0, h2⟩ | ⟨h1, h2⟩)
      · exact ⟨h1, r0, List.mem_append_left _ hr0, h2⟩
      · exact ⟨h1, r, by simp, h2⟩
    · rintro ⟨h1, r0, hr0, h2⟩
      rcases List.mem_append.1 hr0 with h | h
      · exact Or.inl ⟨h1, r0, h, h2⟩
      · rw [List.mem_singleton] at h
        exact Or.inr ⟨h1, h ▸ h2⟩

theorem nodup_setAdd (s : List JSString) (v : JSString) (h : s.Nodup) :
    (setAdd s v).Nodup := by
  unfold setAdd
  by_cases hv : v ∈ s
  · simpa [hv] using h
  · simp only [List.elem_eq_mem, hv, decide_False, Bool.false_eq_true, if_false]
    exact List.Nodup.append h (List.nodup_singleton v) (by simpa using hv)

theorem nodup_addType (s : List JSString) (r : Document) (h : s.Nodup) :
    (addType s r).Nodup := by
  unfold addType
  cases r.path_index with
  | none => exact h
  | some p =>
    by_cases htr : truthyStr p = true
    · simpa [htr] using nodup_setAdd s p h
    · simpa [htr] using h

theorem nodup_allTypes (rs : List Document) : (allTypes rs).Nodup := by
  induction rs using List.reverseRecOn with
  | nil => simp [allTypes]
  | append_singleton rs r ih =>
    rw [allTypes_snoc]
    exact nodup_addType _ _ ih

theorem addType_cases (s : List JSString) (r : Document) :
    addType s r = s ∨
      ∃ p, r.path_index = some p ∧ p ≠ [] ∧ p ∉ s ∧ addType s r = s ++ [p] := by
  unfold addType
  cases hp : r.path_index with
  | none => exact Or.inl rfl
  | some p =>
    by_cases htr : truthyStr p = true
    · by_cases hm : p ∈ s
      · left
        simp [htr, setAdd, hm]
      · right
        refine ⟨p, rfl, ?_, hm, ?_⟩
        · rintro rfl
          simp [truthyStr] at htr
        · simp [htr, setAdd, hm]
    · left
      simp [htr]

theorem firstIndex_snoc_of_mem (rs : List Document) (r : Document) (t : JSString)
    (h : t ∈ allTypes rs) :
    firstIndex (rs ++ [r]) t = firstIndex rs t ∧ firstIndex rs t < rs.length := by
  have hm : some t ∈ rs.map Document.path_index := by
    obtain ⟨_, r0, hr0, h0⟩ := (mem_allTypes rs t).1 h
    exact List.mem_map.2 ⟨r0, hr0, h0⟩
  constructor
  · simp only [firstIndex, List.map_append]
    exact List.indexOf_append_of_mem hm
  · have := List.indexOf_lt_length.2 hm
    simpa [firstIndex] using this

theorem firstIndex_snoc_of_new (rs : List Document) (r : Document) (p : JSString)
    (hne : p ≠ []) (hnew : p ∉ allTypes rs) (hp : r.path_index = some p) :
    firstIndex (rs ++ [r]) p = rs.length := by
  have hm : some p ∉ rs.map Document.path_index := by
    intro hmem
    obtain ⟨r0, hr0, h0⟩ := List.mem_map.1 hmem
    exact hnew ((mem_allTypes rs p).2 ⟨hne, r0, hr0, h0⟩)
  simp only [firstIndex, List.map_append, List.map_cons, List.map_nil]
  rw [List.indexOf_append_of_not_mem hm, hp, List.indexOf_cons_self]
  simp

/-- The members of `allTypes` stand in the order of their first occurrence. -/
theorem allTypes_ordered (rs : List Document) :
    (allTypes rs).Pairwise (fun a b => firstIndex rs a < firstIndex rs b) := by
  induction rs using List.reverseRecOn with
  | nil => simp [allTypes]
  | append_singleton rs r ih =>
    have hold : (allTypes rs).Pairwise
        (fun a b => firstIndex (rs ++ [r]) a < firstIndex (rs ++ [r]) b) := by
      refine ih.imp_of_mem ?_
      intro a b ha hb hab
      rw [(firstIndex_snoc_of_mem rs r a ha).1, (firstIndex_snoc_of_mem rs r b hb).1]
      exact hab
    rw [allTypes_snoc]
    rcases addType_cases (allTypes rs) r with h | ⟨p, hp, hne, hnew, h⟩
    · rw [h]
      exact hold
    · rw [h, List.pairwise_append]
      refine ⟨hold, List.pairwise_singleton _ _, ?_⟩
      intro a ha b hb
      rw [List.mem_singleton] at hb
      subst hb
      rw [(firstIndex_snoc_of_mem rs r a ha).1, firstIndex_snoc_of_new rs r b hne hnew hp]
      exact (firstIndex_snoc_of_mem rs r a ha).2

/-- C4 as stated fails: a result whose `path_index` is present and is the empty
string contributes nothing to `allTypes`. -/
theorem allTypes_drops_empty_string :
    ¬ (∀ results : List Document, ∀ r ∈ results, ∀ p : JSString,
        r.path_index = some p → p ∈ allTypes results) := by
  intro h
  have h1 := h emptyFacetResults _ (List.mem_singleton_self _) [] rfl
  revert h1
  decide

/-- C4, amended: `allTypes` contains the `path_index` of every result whose
`path_index` is a non-empty string, every member is such a value, and the
members are listed in the order of their first occurrence in `results` (the
first-occurrence positions are strictly increasing along `allTypes`). -/
theorem allTypes_first_seen (results : List Document) :
    (∀ r ∈ results, ∀ p : JSString, r.path_index = some p → p ≠ [] →
      p ∈ allTypes results) ∧
    (∀ t ∈ allTypes results, t ≠ [] ∧ firstIndex results t < results.length) ∧
    (allTypes results).Pairwise
      (fun a b => firstIndex results a < firstIndex results b) := by
  refine ⟨?_, ?_, allTypes_ordered results⟩
  · intro r hr p hp hne
    exact (mem_allTypes results p).2 ⟨hne, r, hr, hp⟩
  · intro t ht
    obtain ⟨hne, r0, hr0, h0⟩ := (mem_allTypes results t).1 ht
    refine ⟨hne, ?_⟩
    have := List.indexOf_lt_length.2 (List.mem_map.2 ⟨r0, hr0, h0⟩)
    simpa [firstIndex] using this

theorem allTypes_first_seen_witness :
    allTypes sampleResults = [str "a", str "b"] ∧
    (allTypes sampleResults).Pairwise
      (fun a b => firstIndex sampleResults a < firstIndex sampleResults b) :=
  ⟨by decide, (allTypes_first_seen sampleResults).2.2⟩

/-- C5: `allTypes` has no duplicate, every member is the `path_index` of some
result of the list, and the results lacking `path_index` can be removed from
the list without changing `allTypes`. -/
theorem allTypes_nodup_sound (results : List Document) :
    (allTypes results).Nodup ∧
    (∀ t ∈ allTypes results, ∃ r ∈ results, r.path_index = some t) ∧
    allTypes (results.filter (fun r => r.path_index.isSome)) = allTypes results := by
  refine ⟨nodup_allTypes results, ?_, ?_⟩
  · intro t ht
    exact ((mem_allTypes results t).1 ht).2
  · unfold allTypes
    generalize ([] : List JSString) = acc
    induction results generalizing acc with
    | nil => rfl
    | cons r rs ih =>
      cases hp : r.path_index with
      | none =>
        have hadd : addType acc r = acc := by simp [addType, hp]
        simp [List.filter_cons, hp, hadd, ih]
      | some p => simp [List.filter_cons, hp, ih]

theorem allTypes_nodup_sound_witness :
    (allTypes sampleResults).Nodup ∧
    (∀ t ∈ allTypes sampleResults, ∃ r ∈ sampleResults, r.path_index = some t) :=
  ⟨(allTypes_nodup_sound sampleResults).1, (allTypes_nodup_sound sampleResults).2.1⟩

/-! ## handleSearch -/

/-- C6: when the search call resolves with a success status and a JSON object,
after `handleSearch` the results are the response's `results` (the empty list
when absent), `total` is the response's `total.value` (0 when `total` or its
`value` is absent), `error` is null and `loading` is false. -/
theorem handleSearch_success (fetchSearch : SearchRequest → SearchOutcome) (s : AppState)
    (data : SearchData)
    (h : fetchSearch (searchRequest s) = .response true (.ok data)) :
    (handleSearch fetchSearch s).results = data.results.getD [] ∧
    (handleSearch fetchSearch s).total = some ((data.total.bind Total.value).getD 0) ∧
    (handleSearch fetchSearch s).error = none ∧
    (handleSearch fetchSearch s).loading = false := by
  have htot : totalOrZero data = (data.total.bind Total.value).getD 0 := by
    unfold totalOrZero
    cases data.total with
    | none => rfl
    | some t =>
      cases hv : t.value with
      | none => simp [hv]
      | some v =>
        by_cases h0 : v = 0
        · simp [hv, h0]
        · simp [hv, h0]
  have hres : resultsOrEmpty data = data.results.getD [] := by
    unfold resultsOrEmpty
    cases data.results <;> rfl
  simp [handleSearch, h, htot, hres]

theorem handleSearch_success_witness :
    (handleSearch (fun _ => .response true (.ok scenarioData)) scenarioState).results.length = 2 ∧
    (handleSearch (fun _ => .response true (.ok scenarioData)) scenarioState).total = some 2 ∧
    (handleSearch (fun _ => .response true (.ok scenarioData)) scenarioState).error = none ∧
    (handleSearch (fun _ => .response true (.ok scenarioData)) scenarioState).loading = false := by
  have h := handleSearch_success (fun _ => .response true (.ok scenarioData)) scenarioState
    scenarioData rfl
  exact ⟨by rw [h.1]; rfl, by rw [h.2.1]; rfl, h.2.2.1, h.2.2.2⟩

/-- C7: when the search call fails, after `handleSearch` the field `error` is a
non-empty string, `results` and `total` are what they were before the call and
`loading` is false.  For a rejected `fetch` (network error) and for a rejected
`res.json()` (parse failure) `error` is the message of the thrown error, which
is non-empty as the messages of these errors are; for a non-success status it
is the fixed string `Ошибка загрузки`. -/
theorem handleSearch_failure (fetchSearch : SearchRequest → SearchOutcome) (s : AppState) :
    (∀ err, fetchSearch (searchRequest s) = .rejected err → err.message ≠ [] →
      SearchFailed s (handleSearch fetchSearch s) ∧
      (handleSearch fetchSearch s).error = some err.message) ∧
    (∀ json, fetchSearch (searchRequest s) = .response false json →
      SearchFailed s (handleSearch fetchSearch s) ∧
      (handleSearch fetchSearch s).error = some loadErrorMessage) ∧
    (∀ err, fetchSearch (searchRequest s) = .response true (.error err) →
      err.message ≠ [] →
      SearchFailed s (handleSearch fetchSearch s) ∧
      (handleSearch fetchSearch s).error = some err.message) := by
  refine ⟨?_, ?_, ?_⟩
  · intro err h hne
    simp [SearchFailed, handleSearch, h, hne]
  · intro json h
    have hne : loadErrorMessage ≠ [] := by decide
    simp [SearchFailed, handleSearch, h, hne]
  · intro err h hne
    simp [SearchFailed, handleSearch, h, hne]

theorem handleSearch_failure_witness :
    (str "Failed to fetch" ≠ [] ∧ str "Unexpected token" ≠ []) ∧
    SearchFailed scenarioState
      (handleSearch (fun _ => .rejected { message := str "Failed to fetch" }) scenarioState) ∧
    SearchFailed scenarioState
      (handleSearch (fun _ => .response false (.ok scenarioData)) scenarioState) ∧
    SearchFailed scenarioState
      (handleSearch (fun _ => .response true (.error { message := str "Unexpected token" }))
        scenarioState) :=
  ⟨⟨by decide, by decide⟩,
    ((handleSearch_failure (fun _ => .rejected { message := str "Failed to fetch" })
      scenarioState).1 _ rfl (by decide)).1,
    ((handleSearch_failure (fun _ => .response false (.ok scenarioData))
      scenarioState).2.1 _ rfl).1,
    ((handleSearch_failure
      (fun _ => .response true (.error { message := str "Unexpected token" }))
      scenarioState).2.2 _ rfl (by decide)).1⟩

/-! ## Likes -/

theorem sendLike_fst (fetchLike : LikeRequest → LikeOutcome) (likes : Likes)
    (docId : Option JSString) (q : JSString) :
    (sendLike fetchLike likes docId q).1 = setLiked likes docId := by
  unfold sendLike
  cases fetchLike { doc_id := docId, query := q } <;> rfl

theorem setLiked_idem (likes : Likes) (docId : Option JSString) :
    setLiked (setLiked likes docId) docId = setLiked likes docId := by
  funext k
  unfold setLiked
  by_cases h : k = propertyKey docId <;> simp [h]

/-- C8: whatever the register-like call does (`fetchLike` is arbitrary: it may
resolve with any status or reject), after `sendLike(id, q)` the entry
`likes[id]` is true and every key that was true is still true; a second call on
the same id, with any query and any outcome, leaves `likes[id]` true and the
like state equal to the state after the first call; the like state after a call
is the same for any two behaviours of the register-like call. -/
theorem sendLike_latch (fetchLike fetchLike2 : LikeRequest → LikeOutcome) (likes : Likes)
    (docId : Option JSString) (q q2 : JSString) :
    likesAt (sendLike fetchLike likes docId q).1 docId = some true ∧
    (∀ k, likes k = some true → (sendLike fetchLike likes docId q).1 k = some true) ∧
    (sendLike fetchLike2 (sendLike fetchLike likes docId q).1 docId q2).1 =
      (sendLike fetchLike likes docId q).1 ∧
    likesAt (sendLike fetchLike2 (sendLike fetchLike likes docId q).1 docId q2).1 docId =
      some true ∧
    (sendLike fetchLike likes docId q).1 = (sendLike fetchLike2 likes docId q).1 := by
  simp only [sendLike_fst, setLiked_idem]
  refine ⟨?_, ?_, trivial, ?_, trivial⟩
  · simp [likesAt, setLiked]
  · intro k hk
    unfold setLiked
    by_cases h : k = propertyKey docId <;> simp [h, hk]
  · simp [likesAt, setLiked]

theorem sendLike_latch_witness :
    likesAt (sendLike (fun _ => .rejected { message := str "offline" }) noLikes
      (some (str "7")) (str "q")).1 (some (str "7")) = some true :=
  (sendLike_latch (fun _ => .rejected { message := str "offline" }) (fun _ => .resolved false)
    noLikes (some (str "7")) (str "q") (str "q")).1

/-- C10, evaluated on two results without `id`: their React keys fall back to
the positions 0 and 1, but clicking the like button of the result at position 0
stores the like under the key `undefined`, and the result at position 1, not
liked before, is displayed as liked. -/
theorem like_without_id_shared :
    (firstNoId.id = none ∧ secondNoId.id = none ∧ firstNoId ≠ secondNoId) ∧
    (cardKey firstNoId 0 = .inr 0 ∧ cardKey secondNoId 1 = .inr 1) ∧
    likedShown noLikes secondNoId = false ∧
    likedShown (clickLike (fun _ => .resolved true) noLikes noIdResults (str "q") 0)
      secondNoId = true ∧
    (clickLike (fun _ => .resolved true) noLikes noIdResults (str "q") 0) (str "undefined")
      = some true := by
  decide

/-- Where both documents carry an `id` and the ids differ, liking one leaves the
displayed status of the other unchanged. -/
theorem like_frame_of_ids (fetchLike : LikeRequest → LikeOutcome) (likes : Likes)
    (a b : Document) (q : JSString) (ia ib : JSString)
    (ha : a.id = some ia) (hb : b.id = some ib) (hne : ia ≠ ib) :
    likedShown (sendLike fetchLike likes a.id q).1 b = likedShown likes b := by
  rw [sendLike_fst]
  have hk : ¬ ib = ia := fun h => hne h.symm
  simp [likedShown, likesAt, setLiked, ha, hb, propertyKey, hk]

/-! ## YearRangeSlider -/

theorem runGestures_snoc (st : RangeState) (gs : List Gesture) (g : Gesture) :
    runGestures st (gs ++ [g]) = gesture (runGestures st gs) g := by
  simp [runGestures, List.foldl_append]

/-- The widget keeps a pair within the bounds and in order. -/
theorem deliver_inRange (values : Int × Int) (g : Gesture) (h : InRange values) :
    InRange (deliver values g) := by
  obtain ⟨a, b⟩ := values
  obtain ⟨t, v⟩ := g
  simp only [InRange, MIN, MAX] at h
  cases t
  · simp only [InRange, deliver, clampRequested, MIN, MAX]
    split_ifs <;> omega
  · simp only [InRange, deliver, clampRequested, MIN, MAX]
    split_ifs <;> omega

/-- From a slider mounted by `App` on a range within the bounds, the stored and
the reported pair stay within the bounds and in order. -/
theorem runGestures_inRange (r : Int × Int) (h : InRange r) (gs : List Gesture) :
    InRange (runGestures (appMount r) gs).values ∧
    InRange (runGestures (appMount r) gs).yearRange := by
  induction gs using List.reverseRecOn with
  | nil =>
    have h1 := h
    obtain ⟨a, b⟩ := r
    simp only [InRange, MIN, MAX] at h1
    have ha : ¬ a = 0 := by omega
    have hb : ¬ b = 0 := by omega
    have hv : (runGestures (appMount (a, b)) []).values = (a, b) := by
      simp [runGestures, appMount, mount, initialValues, orDefault, ha, hb]
    refine ⟨?_, h⟩
    rw [hv]
    exact h
  | append_singleton gs g ih =>
    rw [runGestures_snoc]
    exact ⟨deliver_inRange _ g ih.1, deliver_inRange _ g ih.1⟩

/-- C9: from the slider of the initial `App`, and from the slider `App` mounts
on any range with `1500 ≤ start ≤ end ≤ 2025`, after every sequence of gestures
the pair stored by the control and the pair reported upward to `yearRange`
satisfy `1500 ≤ start ≤ end ≤ 2025`; and in the state reached, a gesture asking
for a start above the current end stores and reports start = end, the end
unchanged.  Absent props give the same initial pair `[1500, 2025]`. -/
theorem yearRange_clamped (gs : List Gesture) :
    (InRange (runGestures appInitial gs).values ∧
      InRange (runGestures appInitial gs).yearRange) ∧
    (∀ r : Int × Int, InRange r →
      InRange (runGestures (appMount r) gs).values ∧
      InRange (runGestures (appMount r) gs).yearRange) ∧
    (∀ v : Int, (runGestures appInitial gs).values.2 < v →
      (gesture (runGestures appInitial gs) { thumb := .startThumb, requested := v }).values
        = ((runGestures appInitial gs).values.2, (runGestures appInitial gs).values.2) ∧
      (gesture (runGestures appInitial gs) { thumb := .startThumb, requested := v }).yearRange
        = ((runGestures appInitial gs).values.2, (runGestures appInitial gs).values.2)) ∧
    initialValues none none = (1500, 2025) := by
  refine ⟨runGestures_inRange (1500, 2025) (by decide) gs,
    fun r hr => runGestures_inRange r hr gs, ?_, rfl⟩
  intro v hv
  simp [gesture, handleChange, deliver, clampRequested, hv]

theorem yearRange_clamped_witness :
    (InRange (1917, 1930) ∧
      (runGestures appInitial [{ thumb := .endThumb, requested := 1600 }]).values.2 < 2000) ∧
    InRange (runGestures (appMount (1917, 1930))
      [{ thumb := .endThumb, requested := 1600 }]).values ∧
    (gesture (runGestures appInitial [{ thumb := .endThumb, requested := 1600 }])
      { thumb := .startThumb, requested := 2000 }).values = (1600, 1600) :=
  ⟨⟨by decide, by decide⟩,
    ((yearRange_clamped [{ thumb := .endThumb, requested := 1600 }]).2.1 (1917, 1930)
      (by decide)).1,
    ((yearRange_clamped [{ thumb := .endThumb, requested := 1600 }]).2.2.1 2000
      (by decide)).1⟩

end Necrasovka
